import Mathlib

/-!
Verification of the command-execution tool boundary of the PowerShell agent
(`src/PowershellAgent.py`).

The two tool functions `execute_powershell_command` and
`search_powershell_command` wrap `subprocess.run` calls.  We embed them
shallowly: the outcome of a `subprocess.run` call is a value of type
`ProcOutcome` (either the process completed with a return code, captured
stdout and captured stderr, or the call raised `subprocess.TimeoutExpired`,
or it raised some other exception carrying a message string), and each
Python function becomes a pure Lean function from the outcome(s) of its
subprocess call(s) to the string it returns.  The arguments each function
passes to `subprocess.run` are recorded in a `SpawnSpec` value.
Python's `str.strip()` is modelled by `pyStrip`, which removes leading and
trailing whitespace characters (space, tab, newline, carriage return,
vertical tab, form feed), mirroring `str.strip()` on ASCII text.
-/

namespace PowershellAgent

/-- The whitespace characters removed by Python's `str.strip()` (restricted
to the ASCII range): space, tab, newline, carriage return, vertical tab and
form feed. -/
def isPyWhitespace (c : Char) : Bool :=
  c == ' ' || c == '\t' || c == '\n' || c == '\r' || c == '\x0b' || c == '\x0c'

/-- Python's `str.strip()` with no argument: remove leading and trailing
whitespace.  Defined on the underlying character list so it is
kernel-computable. -/
def pyStrip (s : String) : String :=
  String.mk (((s.data.dropWhile isPyWhitespace).reverse.dropWhile isPyWhitespace).reverse)

/-- Outcome of a single `subprocess.run` invocation, as observed by the
caller: either the child completed (with its exit code and captured text
streams), or the call raised `subprocess.TimeoutExpired`, or it raised some
other exception whose `str(e)` is `msg` (e.g. `FileNotFoundError` when the
interpreter binary is missing). -/
inductive ProcOutcome where
  | completed (returncode : Int) (stdout : String) (stderr : String)
  | timedOut
  | raised (msg : String)

/-- The keyword arguments the Python code passes to `subprocess.run`:
the argv list, `capture_output`, `text`, `timeout` (seconds) and `shell`. -/
structure SpawnSpec where
  argv : List String
  capture_output : Bool
  text : Bool
  timeout : Nat
  shell : Bool

/-- The `subprocess.run` invocation made by `execute_powershell_command`
(src/PowershellAgent.py lines 62-68): argv is the explicit list
`["powershell", "-Command", command]`, with a 30 second timeout and
`shell=False`. -/
def execute_powershell_spawn (command : String) : SpawnSpec :=
  { argv := ["powershell", "-Command", command]
    capture_output := true
    text := true
    timeout := 30
    shell := false }

/-- `execute_powershell_command` (src/PowershellAgent.py lines 60-80) as a
function of the outcome of its single `subprocess.run` call. -/
def execute_powershell_command (outcome : ProcOutcome) : String :=
  match outcome with
  | .completed returncode stdout stderr =>
      if returncode = 0 then
        let output := pyStrip stdout
        if output = "" then "Command executed successfully with no output."
        else output
      else
        "Error executing command: " ++ pyStrip stderr
  | .timedOut => "Error: Command execution timed out (30 seconds limit)."
  | .raised msg => "Error: " ++ msg

/-- The first `subprocess.run` invocation made by
`search_powershell_command` (src/PowershellAgent.py lines 97-104): the
direct `Get-Help` lookup, with a 15 second timeout and `shell=False`. -/
def search_help_spawn (query : String) : SpawnSpec :=
  { argv := ["powershell", "-Command",
      "Get-Help " ++ query ++ " -ErrorAction SilentlyContinue"]
    capture_output := true
    text := true
    timeout := 15
    shell := false }

/-- The second `subprocess.run` invocation made by
`search_powershell_command` (src/PowershellAgent.py lines 110-117): the
fuzzy `Get-Command` wildcard search limited to the first 5 results, with a
15 second timeout and `shell=False`. -/
def search_fuzzy_spawn (query : String) : SpawnSpec :=
  { argv := ["powershell", "-Command",
      "Get-Command *" ++ query ++
        "* -ErrorAction SilentlyContinue | Select-Object -First 5 Name, Synopsis"]
    capture_output := true
    text := true
    timeout := 15
    shell := false }

/-- The fallback branch of `search_powershell_command`
(src/PowershellAgent.py lines 109-122), as a function of the outcome of
the second (fuzzy `Get-Command`) subprocess call.  Exceptions raised by
that call are handled by the same `except` clauses as for the first call
(lines 124-127). -/
def fuzzy_search_result (query : String) (step2 : ProcOutcome) : String :=
  match step2 with
  | .completed rc2 out2 _ =>
      if rc2 = 0 ∧ pyStrip out2 ≠ "" then
        "Related commands found:\n" ++ pyStrip out2 ++
          "\n\nUse Get-Help <command-name> for more details."
      else
        "No help found for '" ++ query ++
          "'. Try using more specific command names like Get-Process, Get-Service, etc."
  | .timedOut => "Error: Search timed out."
  | .raised msg => "Error searching for command: " ++ msg

/-- `search_powershell_command` (src/PowershellAgent.py lines 84-127) as a
function of the query and the outcomes of its two potential
`subprocess.run` calls.  The Python code runs the second call only when
the first one completes without a usable result; when the first call
succeeds with non-empty trimmed stdout, `step2` is irrelevant. -/
def search_powershell_command (query : String)
    (step1 : ProcOutcome) (step2 : ProcOutcome) : String :=
  match step1 with
  | .completed rc1 out1 _ =>
      if rc1 = 0 ∧ pyStrip out1 ≠ "" then pyStrip out1
      else fuzzy_search_result query step2
  | .timedOut => "Error: Search timed out."
  | .raised msg => "Error searching for command: " ++ msg

theorem append_ne_empty_of_left_ne_empty (s t : String) (hs : s ≠ "") :
    s ++ t ≠ "" := by
  intro h
  apply hs
  have hlen := congrArg String.length h
  rw [String.length_append] at hlen
  have hempty : ("" : String).length = 0 := rfl
  have : s.length = 0 := by omega
  exact String.ext (List.eq_nil_of_length_eq_zero this)

/-- C1: For every command whose subprocess exits with code zero,
`execute_powershell_command` returns the trimmed stdout when the trimmed
stdout is non-empty, and returns the literal sentinel
"Command executed successfully with no output." when the trimmed stdout is
empty. -/
theorem execute_zero_exit (returncode : Int) (stdout stderr : String)
    (hrc : returncode = 0) :
    (pyStrip stdout ≠ "" →
      execute_powershell_command (.completed returncode stdout stderr) = pyStrip stdout) ∧
    (pyStrip stdout = "" →
      execute_powershell_command (.completed returncode stdout stderr) =
        "Command executed successfully with no output.") := by
  subst hrc
  constructor
  · intro hne
    simp [execute_powershell_command, hne]
  · intro he
    simp [execute_powershell_command, he]

/-- Witness for C1 at concrete inputs: stdout "  hello  " trims to "hello";
all-whitespace stdout trims to empty and yields the sentinel. -/
theorem execute_zero_exit_witness :
    execute_powershell_command (.completed 0 "  hello  " "") = "hello" ∧
    execute_powershell_command (.completed 0 "   " "x") =
      "Command executed successfully with no output." :=
  ⟨(execute_zero_exit 0 "  hello  " "" rfl).1 (by decide),
   (execute_zero_exit 0 "   " "x" rfl).2 (by decide)⟩

/-- C2: For every command whose subprocess exits with a non-zero code,
`execute_powershell_command` returns exactly
"Error executing command: " concatenated with the trimmed stderr. -/
theorem execute_nonzero_exit (returncode : Int) (stdout stderr : String)
    (hrc : returncode ≠ 0) :
    execute_powershell_command (.completed returncode stdout stderr) =
      "Error executing command: " ++ pyStrip stderr := by
  simp [execute_powershell_command, hrc]

/-- Witness for C2 at a concrete input: exit code 1, stderr " boom \n". -/
theorem execute_nonzero_exit_witness :
    execute_powershell_command (.completed 1 "ignored" " boom \n") =
      "Error executing command: " ++ "boom" := by
  have h := execute_nonzero_exit 1 "ignored" " boom \n" (by decide)
  rw [h]
  decide

/-- C3: `execute_powershell_command` passes a 30 second timeout to
`subprocess.run` for every command, and when that timeout fires
(`subprocess.TimeoutExpired` is raised) it returns exactly the fixed
message "Error: Command execution timed out (30 seconds limit).". -/
theorem execute_timeout (command : String) :
    (execute_powershell_spawn command).timeout = 30 ∧
    execute_powershell_command .timedOut =
      "Error: Command execution timed out (30 seconds limit)." :=
  ⟨rfl, rfl⟩

/-- C4: Neither tool propagates a raised fault: every exception outcome is
converted locally into a descriptive string.  A launch failure (or any
other exception) in `execute_powershell_command` yields
"Error: " + the failure description; in `search_powershell_command` an
exception raised by either subprocess call yields
"Error searching for command: " + the failure description. -/
theorem tool_boundary_no_fault :
    (∀ msg, execute_powershell_command (.raised msg) = "Error: " ++ msg) ∧
    (∀ query msg step2,
      search_powershell_command query (.raised msg) step2 =
        "Error searching for command: " ++ msg) ∧
    (∀ query rc1 out1 err1 msg, ¬(rc1 = 0 ∧ pyStrip out1 ≠ "") →
      search_powershell_command query (.completed rc1 out1 err1) (.raised msg) =
        "Error searching for command: " ++ msg) := by
  refine ⟨fun msg => rfl, fun query msg step2 => rfl, ?_⟩
  intro query rc1 out1 err1 msg h
  simp [search_powershell_command, h, fuzzy_search_result]

/-- Witness for C4 at concrete inputs: a missing interpreter binary raises
`FileNotFoundError` in the first subprocess call of each tool, and in the
second subprocess call of the search tool after a failed help lookup. -/
theorem tool_boundary_no_fault_witness :
    execute_powershell_command (.raised "[Errno 2] No such file or directory") =
      "Error: " ++ "[Errno 2] No such file or directory" ∧
    search_powershell_command "x" (.raised "denied") .timedOut =
      "Error searching for command: " ++ "denied" ∧
    search_powershell_command "x" (.completed 1 "" "e") (.raised "denied") =
      "Error searching for command: " ++ "denied" :=
  ⟨tool_boundary_no_fault.1 "[Errno 2] No such file or directory",
   tool_boundary_no_fault.2.1 "x" "denied" .timedOut,
   tool_boundary_no_fault.2.2 "x" 1 "" "e" "denied" (by decide)⟩

/-- C5: `search_powershell_command` first attempts a direct `Get-Help`
lookup for the exact query with a 15 second timeout, and reaches the
fallback fuzzy `Get-Command` wildcard search (at most 5 results, also a 15
second timeout) if and only if the first step yields no output or exits
non-zero; when the first step exits zero with non-empty trimmed stdout its
trimmed output is returned regardless of the second step's outcome. -/
theorem search_two_step_order (query : String) :
    (search_help_spawn query).argv =
      ["powershell", "-Command",
        "Get-Help " ++ query ++ " -ErrorAction SilentlyContinue"] ∧
    (search_help_spawn query).timeout = 15 ∧
    (search_fuzzy_spawn query).argv =
      ["powershell", "-Command",
        "Get-Command *" ++ query ++
          "* -ErrorAction SilentlyContinue | Select-Object -First 5 Name, Synopsis"] ∧
    (search_fuzzy_spawn query).timeout = 15 ∧
    (∀ rc1 out1 err1 step2, rc1 = 0 → pyStrip out1 ≠ "" →
      search_powershell_command query (.completed rc1 out1 err1) step2 =
        pyStrip out1) ∧
    (∀ rc1 out1 err1 step2, ¬(rc1 = 0 ∧ pyStrip out1 ≠ "") →
      search_powershell_command query (.completed rc1 out1 err1) step2 =
        fuzzy_search_result query step2) := by
  refine ⟨rfl, rfl, rfl, rfl, ?_, ?_⟩
  · intro rc1 out1 err1 step2 h1 h2
    subst h1
    simp [search_powershell_command, h2]
  · intro rc1 out1 err1 step2 h
    simp [search_powershell_command, h]

/-- Witness for C5 at concrete inputs: a successful help lookup returns its
trimmed output and ignores the second step; a failed lookup hands the
second step's outcome to the fallback. -/
theorem search_two_step_order_witness :
    search_powershell_command "Get-Process" (.completed 0 " HELP TEXT " "") .timedOut =
      "HELP TEXT" ∧
    search_powershell_command "Get-Process" (.completed 1 "x" "") (.completed 0 " y " "") =
      fuzzy_search_result "Get-Process" (.completed 0 " y " "") := by
  constructor
  · have h := (search_two_step_order "Get-Process").2.2.2.2.1
      0 " HELP TEXT " "" .timedOut rfl (by decide)
    rw [h]
    decide
  · exact (search_two_step_order "Get-Process").2.2.2.2.2
      1 "x" "" (.completed 0 " y " "") (by decide)

/-- C6: When the direct help lookup and the fallback fuzzy search both
complete but each yields no output or exits non-zero,
`search_powershell_command` returns exactly the not-found template
containing the queried term. -/
theorem search_not_found (query : String) (rc1 rc2 : Int)
    (out1 err1 out2 err2 : String)
    (h1 : ¬(rc1 = 0 ∧ pyStrip out1 ≠ ""))
    (h2 : ¬(rc2 = 0 ∧ pyStrip out2 ≠ "")) :
    search_powershell_command query
        (.completed rc1 out1 err1) (.completed rc2 out2 err2) =
      "No help found for '" ++ query ++
        "'. Try using more specific command names like Get-Process, Get-Service, etc." := by
  simp [search_powershell_command, fuzzy_search_result, h1, h2]

/-- Witness for C6 at a concrete input: the query "zzz-nonexistent-cmd"
with both steps exiting non-zero and producing no output. -/
theorem search_not_found_witness :
    search_powershell_command "zzz-nonexistent-cmd"
        (.completed 1 "" "") (.completed 1 "" "") =
      "No help found for 'zzz-nonexistent-cmd'. Try using more specific command names like Get-Process, Get-Service, etc." := by
  have h := search_not_found "zzz-nonexistent-cmd" 1 1 "" "" "" ""
    (by decide) (by decide)
  rw [h]
  decide

/-- C7: If either subprocess call of `search_powershell_command` raises
`subprocess.TimeoutExpired` (each call is made with a 15 second timeout),
the function returns exactly "Error: Search timed out.". -/
theorem search_timeout :
    (∀ query step2,
      search_powershell_command query .timedOut step2 = "Error: Search timed out.") ∧
    (∀ query rc1 out1 err1, ¬(rc1 = 0 ∧ pyStrip out1 ≠ "") →
      search_powershell_command query (.completed rc1 out1 err1) .timedOut =
        "Error: Search timed out.") := by
  refine ⟨fun query step2 => rfl, ?_⟩
  intro query rc1 out1 err1 h
  simp [search_powershell_command, h, fuzzy_search_result]

/-- Witness for C7 at concrete inputs: a timeout on the first step (with an
arbitrary second outcome) and a timeout on the second step after a failed
first step. -/
theorem search_timeout_witness :
    search_powershell_command "q" .timedOut (.completed 0 "x" "") =
      "Error: Search timed out." ∧
    search_powershell_command "q" (.completed 1 "" "") .timedOut =
      "Error: Search timed out." :=
  ⟨search_timeout.1 "q" (.completed 0 "x" ""),
   search_timeout.2 "q" 1 "" "" (by decide)⟩

/-- C8: Every subprocess spawn in the program passes the interpreter
binary, the command flag and the command string as three separate argv
elements with `shell=False` — never one concatenated string through a
secondary shell. -/
theorem spawn_explicit_argv (command query : String) :
    (execute_powershell_spawn command).argv = ["powershell", "-Command", command] ∧
    (execute_powershell_spawn command).argv.length = 3 ∧
    (execute_powershell_spawn command).shell = false ∧
    (search_help_spawn query).argv.length = 3 ∧
    (search_help_spawn query).shell = false ∧
    (search_fuzzy_spawn query).argv.length = 3 ∧
    (search_fuzzy_spawn query).shell = false :=
  ⟨rfl, rfl, rfl, rfl, rfl, rfl, rfl⟩

/-- C9: `execute_powershell_command` is deterministic in the subprocess
outcome: two runs that produce the same exit code, stdout and stderr get
exactly the same result string. -/
theorem execute_deterministic (rc1 rc2 : Int) (out1 out2 err1 err2 : String)
    (hrc : rc1 = rc2) (hout : out1 = out2) (herr : err1 = err2) :
    execute_powershell_command (.completed rc1 out1 err1) =
      execute_powershell_command (.completed rc2 out2 err2) := by
  subst hrc
  subst hout
  subst herr
  rfl

/-- Witness for C9 at a concrete input: two runs of `echo hello`, both
exiting 0 with stdout "hello\n" and empty stderr. -/
theorem execute_deterministic_witness :
    execute_powershell_command (.completed 0 "hello\n" "") =
      execute_powershell_command (.completed 0 "hello\n" "") :=
  execute_deterministic 0 0 "hello\n" "hello\n" "" "" rfl rfl rfl

/-- C10: For every subprocess outcome, the string returned by
`execute_powershell_command` is non-empty: empty trimmed stdout on success
is replaced by the sentinel, and every error branch starts with a fixed
non-empty text. -/
theorem execute_result_nonempty (outcome : ProcOutcome) :
    execute_powershell_command outcome ≠ "" := by
  cases outcome with
  | completed rc out err =>
      simp only [execute_powershell_command]
      split
      · split
        · decide
        · assumption
      · exact append_ne_empty_of_left_ne_empty _ _ (by decide)
  | timedOut => decide
  | raised msg =>
      exact append_ne_empty_of_left_ne_empty "Error: " msg (by decide)

end PowershellAgent
